import Mathlib

/-!
Shallow embedding of the `agenda.capas` contact-book application
(frontend `Script.js` and the Express backend it ships with).

The embedding covers:
* the client-side `Validator` (`isValidPhone`, `isValidName`, `sanitizeText`,
  `validateContact`) and the submission pipeline `Agenda.handleFormSubmit`;
* the backend contact store (`readContacts` / `writeContacts` over the
  `contacts.json` document) and the two HTTP routes
  (`GET /api/contacts`, `POST /api/contacts`).

Persistence is modelled at the JSON-value level: the backing document is
either missing (ENOENT on read), unreadable for another reason, malformed
(JSON.parse raises SyntaxError), or holds a parsed contact array.  This
reflects that `writeContacts` stores `JSON.stringify(contacts, null, 2)` and
`readContacts` applies `JSON.parse`, which are mutually inverse on the
JSON-representable values the system writes; the string layer itself is a
property of the JavaScript runtime, not of this repository's code.
-/

namespace AgendaCapas

/-- Character class of the JavaScript regex `\s` (whitespace), as used by
`String.prototype.trim`, the `\s` in the name regex, and `replace(/\s+/g,' ')`. -/
def isJsSpace (c : Char) : Bool :=
  c.val = 0x20 || c.val = 0x09 || c.val = 0x0A || c.val = 0x0B ||
  c.val = 0x0C || c.val = 0x0D || c.val = 0xA0 || c.val = 0x1680 ||
  (0x2000 ≤ c.val && c.val ≤ 0x200A) ||
  c.val = 0x2028 || c.val = 0x2029 || c.val = 0x202F || c.val = 0x205F ||
  c.val = 0x3000 || c.val = 0xFEFF

/-- Character class of the JavaScript regex `\d`: the ASCII digits `0`-`9`.
`Char.isDigit` tests exactly this range. -/
def isJsDigit (c : Char) : Bool := c.isDigit

/-- Effect of `s.replace(/\D/g, '')`: delete every non-digit character.
Used by `Validator.isValidPhone` and by the submit handler's phone
normalization. -/
def removeNonDigits (s : String) : String := ⟨s.data.filter isJsDigit⟩

/-- Character class of the name regex
`/^[a-zA-ZáéíóúÁÉÍÓÚñÑüÜ\s'-]+$/` from `Validator.isValidName`. -/
def isNameChar (c : Char) : Bool :=
  ('a' ≤ c && c ≤ 'z') || ('A' ≤ c && c ≤ 'Z') ||
  c = 'á' || c = 'é' || c = 'í' || c = 'ó' || c = 'ú' ||
  c = 'Á' || c = 'É' || c = 'Í' || c = 'Ó' || c = 'Ú' ||
  c = 'ñ' || c = 'Ñ' || c = 'ü' || c = 'Ü' ||
  isJsSpace c || c = '\'' || c = '-'

/-- Test of the anchored regex `/^[...]+$/` on a string: it matches iff the
string is non-empty and every character belongs to the class (JavaScript `$`
without the `m` flag matches only at the very end of the input). -/
def nameRegexTest (s : String) : Bool :=
  !s.isEmpty && s.data.all isNameChar

/-- `Validator.isValidPhone` from `Script.js`:
`if (!phone) return false; const cleanPhone = phone.replace(/\D/g, '');
return cleanPhone.length >= 7 && cleanPhone.length <= 15;` -/
def isValidPhone (phone : String) : Bool :=
  if phone.isEmpty then false
  else
    let cleanPhone := removeNonDigits phone
    decide (7 ≤ cleanPhone.length) && decide (cleanPhone.length ≤ 15)

/-- `Validator.isValidName` from `Script.js`:
`if (!name) return false;
return nameRegex.test(name) && name.length >= 2 && name.length <= 50;` -/
def isValidName (name : String) : Bool :=
  if name.isEmpty then false
  else
    nameRegexTest name && decide (2 ≤ name.length) && decide (name.length ≤ 50)

/-- Fuel-driven core of `replace(/\s+/g, ' ')`: each maximal run of
whitespace characters becomes a single space.  The fuel is the length of the
list, which bounds the recursion. -/
def collapseWsAux : Nat → List Char → List Char
  | 0, _ => []
  | _ + 1, [] => []
  | fuel + 1, c :: cs =>
    if isJsSpace c then ' ' :: collapseWsAux fuel (cs.dropWhile isJsSpace)
    else c :: collapseWsAux fuel cs

/-- Effect of `s.replace(/\s+/g, ' ')`. -/
def collapseWs (s : String) : String := ⟨collapseWsAux s.data.length s.data⟩

/-- JavaScript `String.prototype.trim`: strip leading and trailing
whitespace. -/
def jsTrim (s : String) : String :=
  ⟨((s.data.dropWhile isJsSpace).reverse.dropWhile isJsSpace).reverse⟩

/-- `Validator.sanitizeText` from `Script.js`:
`if (!text) return ''; return text.trim().replace(/\s+/g, ' ');` -/
def sanitizeText (text : String) : String :=
  if text.isEmpty then "" else collapseWs (jsTrim text)

/-- A contact record as it travels through the system.  `req.body` may lack
any of the fields (modelled with `Option`); the spec's `firstName`,
`lastName`, `phone` are the source's `nombre`, `apellido`, `telefono`. -/
structure Contact where
  id : Option String
  nombre : Option String
  apellido : Option String
  telefono : Option String
deriving DecidableEq, Repr

/-- JavaScript truthiness of an optional string field: `undefined` and the
empty string are falsy, every other string is truthy. -/
def truthy : Option String → Bool
  | none => false
  | some s => !s.isEmpty

/-- Result shape of `Validator.validateContact`. -/
structure ValidationResult where
  isValid : Bool
  errors : List String
deriving DecidableEq, Repr

/-- `Validator.validateContact` from `Script.js`: collects, in order, the
error messages for `nombre`, `apellido`, `telefono`; the record is valid iff
no error was produced. -/
def validateContact (c : Contact) : ValidationResult :=
  let nombreErrs :=
    if !truthy c.nombre then ["El nombre es obligatorio"]
    else if !isValidName (c.nombre.getD "") then
      ["El nombre debe contener solo letras y tener entre 2 y 50 caracteres"]
    else []
  let apellidoErrs :=
    if !truthy c.apellido then ["El apellido es obligatorio"]
    else if !isValidName (c.apellido.getD "") then
      ["El apellido debe contener solo letras y tener entre 2 y 50 caracteres"]
    else []
  let telefonoErrs :=
    if !truthy c.telefono then ["El teléfono es obligatorio"]
    else if !isValidPhone (c.telefono.getD "") then
      ["El teléfono debe tener entre 7 y 15 dígitos"]
    else []
  let errors := nombreErrs ++ apellidoErrs ++ telefonoErrs
  { isValid := errors.isEmpty, errors := errors }

/-- Client-side submission pipeline of `Agenda.handleFormSubmit`: trim the
three form fields, validate; on success sanitize the names and strip the
phone to its digits, producing the JSON body POSTed to the server.  On
validation failure nothing is sent (`none`). -/
def handleFormSubmit (nombreRaw apellidoRaw telefonoRaw : String) :
    Option Contact :=
  let contactData : Contact :=
    { id := none
      nombre := some (jsTrim nombreRaw)
      apellido := some (jsTrim apellidoRaw)
      telefono := some (jsTrim telefonoRaw) }
  let validation := validateContact contactData
  if !validation.isValid then none
  else some
    { contactData with
      nombre := some (sanitizeText (jsTrim nombreRaw))
      apellido := some (sanitizeText (jsTrim apellidoRaw))
      telefono := some (removeNonDigits (jsTrim telefonoRaw)) }

/-- Errors `fs.readFile` can reject with, as the backend distinguishes them:
`enoent` (file does not exist) versus any other failure (permissions, disk). -/
inductive FsError where
  | enoent
  | eacces
  | eio
deriving DecidableEq, Repr

/-- State of the backing document `contacts.json`, at the JSON-value level:
reading it can fail with a filesystem error, succeed with content that fails
`JSON.parse` (SyntaxError), or succeed with a parsed contact array. -/
inductive FileContent where
  | err (e : FsError)
  | malformed
  | wellFormed (cs : List Contact)
deriving DecidableEq, Repr

deriving instance DecidableEq for Except

/-- Backend `readContacts` from `server.js`: read and `JSON.parse` the data
file; if the error is ENOENT or a SyntaxError, return `[]`; propagate every
other error. -/
def readContacts : FileContent → Except FsError (List Contact)
  | .err .enoent => .ok []
  | .err e => .error e
  | .malformed => .ok []
  | .wellFormed cs => .ok cs

/-- Backend `writeContacts` from `server.js`: overwrite the data file with
`JSON.stringify(contacts, null, 2)`; the resulting document holds exactly the
given contact array. -/
def writeContacts (contacts : List Contact) : FileContent :=
  .wellFormed contacts

/-- HTTP responses the two routes produce. -/
inductive Response where
  | okJson (contacts : List Contact)
  | created (body : String)
  | badRequest (message : String)
  | serverError (message : String)
deriving DecidableEq, Repr

/-- Route `GET /api/contacts`: `res.json(await readContacts())`, or a 500
with a generic message if the read fails. -/
def getContacts (fc : FileContent) : Response :=
  match readContacts fc with
  | .ok contacts => .okJson contacts
  | .error _ =>
    .serverError "Error interno del servidor al obtener contactos."

/-- Route `POST /api/contacts`: reject with 400 when `nombre`, `apellido` or
`telefono` is falsy; otherwise read the collection, overwrite the body's `id`
with `Date.now().toString()` (the clock reading `now` is an input of the
model), push, write, and answer 201.  A failing read becomes a 500 and leaves
the document untouched. -/
def postContacts (fc : FileContent) (body : Contact) (now : Nat) :
    FileContent × Response :=
  if !truthy body.nombre || !truthy body.apellido || !truthy body.telefono then
    (fc, .badRequest "Faltan campos obligatorios: nombre, apellido o telefono.")
  else
    match readContacts fc with
    | .error _ =>
      (fc, .serverError "Error interno del servidor al agregar contacto.")
    | .ok contacts =>
      let newContact := { body with id := some (Nat.repr now) }
      let updated := contacts ++ [newContact]
      (writeContacts updated, .created "Contacto agregado exitosamente")

/-! Helper lemmas about `Nat.repr`, the model of `Date.now().toString()`:
the decimal representation of a natural number is a non-empty string and is
injective. -/

/-- Numeric value of a decimal digit character. -/
def digitVal (c : Char) : Nat := c.toNat - '0'.toNat

/-- Decimal value of a digit list, most significant digit first, on top of an
accumulator. -/
def digitsValFrom (a : Nat) : List Char → Nat
  | [] => a
  | c :: cs => digitsValFrom (10 * a + digitVal c) cs

theorem digitsValFrom_append (a : Nat) (l1 l2 : List Char) :
    digitsValFrom a (l1 ++ l2) = digitsValFrom (digitsValFrom a l1) l2 := by
  induction l1 generalizing a with
  | nil => rfl
  | cons c cs ih =>
    show digitsValFrom (10 * a + digitVal c) (cs ++ l2) =
      digitsValFrom (digitsValFrom (10 * a + digitVal c) cs) l2
    exact ih (10 * a + digitVal c)

theorem digitVal_digitChar (m : Nat) (h : m < 10) :
    digitVal (Nat.digitChar m) = m := by
  interval_cases m <;> decide

theorem toDigitsCore_append (b fuel : Nat) :
    ∀ (n : Nat) (ds : List Char),
      Nat.toDigitsCore b fuel n ds = Nat.toDigitsCore b fuel n [] ++ ds := by
  induction fuel with
  | zero => intro n ds; simp [Nat.toDigitsCore]
  | succ f ih =>
    intro n ds
    simp only [Nat.toDigitsCore]
    by_cases h : n / b = 0
    · simp [h]
    · simp only [h, if_false]
      rw [ih (n / b) (Nat.digitChar (n % b) :: ds),
        ih (n / b) [Nat.digitChar (n % b)], List.append_assoc]
      rfl

theorem toDigitsCore_ne_nil (b fuel n : Nat) :
    Nat.toDigitsCore b (fuel + 1) n [] ≠ [] := by
  rw [show Nat.toDigitsCore b (fuel + 1) n [] =
      if n / b = 0 then [Nat.digitChar (n % b)]
      else Nat.toDigitsCore b fuel (n / b) [Nat.digitChar (n % b)] from rfl]
  split
  · simp
  · rw [toDigitsCore_append]
    simp

theorem digitsValFrom_toDigitsCore (fuel : Nat) :
    ∀ n : Nat, n < 10 ^ fuel →
      digitsValFrom 0 (Nat.toDigitsCore 10 fuel n []) = n := by
  induction fuel with
  | zero =>
    intro n hn
    interval_cases n
    rfl
  | succ f ih =>
    intro n hn
    simp only [Nat.toDigitsCore]
    by_cases h : n / 10 = 0
    · have hlt : n % 10 < 10 := Nat.mod_lt n (by norm_num)
      rw [if_pos h]
      show digitsValFrom (10 * 0 + digitVal (Nat.digitChar (n % 10))) [] = n
      rw [digitVal_digitChar _ hlt]
      show 10 * 0 + n % 10 = n
      omega
    · simp only [h, if_false]
      rw [toDigitsCore_append 10 f (n / 10) [Nat.digitChar (n % 10)],
        digitsValFrom_append]
      have hdiv : n / 10 < 10 ^ f := by
        rw [Nat.div_lt_iff_lt_mul (by norm_num : 0 < 10)]
        calc n < 10 ^ (f + 1) := hn
        _ = 10 ^ f * 10 := by ring
      rw [ih (n / 10) hdiv]
      have hlt : n % 10 < 10 := Nat.mod_lt n (by norm_num)
      show digitsValFrom (10 * (n / 10) + digitVal (Nat.digitChar (n % 10))) [] = n
      rw [digitVal_digitChar _ hlt]
      show 10 * (n / 10) + n % 10 = n
      omega

theorem digitsValFrom_toDigits (n : Nat) :
    digitsValFrom 0 (Nat.toDigits 10 n) = n := by
  have h1 : n < 10 ^ n := Nat.lt_pow_self (by norm_num) n
  have h2 : (10 : Nat) ^ n ≤ 10 ^ (n + 1) :=
    Nat.pow_le_pow_right (by norm_num) (Nat.le_succ n)
  exact digitsValFrom_toDigitsCore (n + 1) n (Nat.lt_of_lt_of_le h1 h2)

theorem natRepr_injective {m n : Nat} (h : Nat.repr m = Nat.repr n) : m = n := by
  have hdata : Nat.toDigits 10 m = Nat.toDigits 10 n := by
    have := congrArg String.data h
    simpa [Nat.repr, List.asString] using this
  calc m = digitsValFrom 0 (Nat.toDigits 10 m) := (digitsValFrom_toDigits m).symm
  _ = digitsValFrom 0 (Nat.toDigits 10 n) := by rw [hdata]
  _ = n := digitsValFrom_toDigits n

theorem natRepr_ne_empty (n : Nat) : Nat.repr n ≠ "" := by
  intro h
  have hd : Nat.toDigits 10 n = [] := by
    have := congrArg String.data h
    simpa [Nat.repr, List.asString] using this
  exact toDigitsCore_ne_nil 10 n n hd

/-! Shared helper lemmas and concrete sample data for the claim theorems. -/

/-- Sample valid request body. -/
def juan : Contact :=
  { id := none, nombre := some "Juan", apellido := some "Perez",
    telefono := some "8091234567" }

/-- A second sample valid request body, distinct from `juan`. -/
def maria : Contact :=
  { id := none, nombre := some "Maria", apellido := some "Gomez",
    telefono := some "8097654321" }

/-- Behaviour of `POST /api/contacts` when all three fields are truthy and
the store read succeeds: the body, with its `id` overwritten by the clock
string, is appended and written back, and the route answers 201. -/
theorem postContacts_valid (fc : FileContent) (cs : List Contact)
    (body : Contact) (now : Nat)
    (hn : truthy body.nombre = true) (ha : truthy body.apellido = true)
    (ht : truthy body.telefono = true)
    (hread : readContacts fc = Except.ok cs) :
    postContacts fc body now =
      (.wellFormed (cs ++ [{ body with id := some (Nat.repr now) }]),
       .created "Contacto agregado exitosamente") := by
  simp [postContacts, hn, ha, ht, hread, writeContacts]

/-- Claim C1 — for every valid create request (all three fields present and
non-empty) against a readable store, `POST /api/contacts` answers 201, the
persisted collection afterwards is the old one plus exactly one new record,
and that record carries the request's `nombre`/`apellido`/`telefono` together
with a non-empty server-assigned `id`. -/
theorem create_valid_appends_one (fc : FileContent) (cs : List Contact)
    (body : Contact) (now : Nat)
    (hn : truthy body.nombre = true) (ha : truthy body.apellido = true)
    (ht : truthy body.telefono = true)
    (hread : readContacts fc = Except.ok cs) :
    ∃ newContact : Contact,
      (postContacts fc body now).2 = .created "Contacto agregado exitosamente" ∧
      readContacts (postContacts fc body now).1 =
        Except.ok (cs ++ [newContact]) ∧
      (cs ++ [newContact]).length = cs.length + 1 ∧
      newContact.nombre = body.nombre ∧
      newContact.apellido = body.apellido ∧
      newContact.telefono = body.telefono ∧
      ∃ s, newContact.id = some s ∧ s ≠ "" := by
  refine ⟨{ body with id := some (Nat.repr now) }, ?_, ?_, ?_, rfl, rfl, rfl,
    Nat.repr now, rfl, natRepr_ne_empty now⟩
  · rw [postContacts_valid fc cs body now hn ha ht hread]
  · rw [postContacts_valid fc cs body now hn ha ht hread]
    rfl
  · simp

/-- Witness for C1: creating `juan` on an empty store at clock reading 5. -/
theorem create_valid_appends_one_witness :
    (truthy juan.nombre = true ∧ truthy juan.apellido = true ∧
     truthy juan.telefono = true ∧
     readContacts (.wellFormed []) = Except.ok ([] : List Contact)) ∧
    ∃ newContact : Contact,
      (postContacts (.wellFormed []) juan 5).2 =
        .created "Contacto agregado exitosamente" ∧
      readContacts (postContacts (.wellFormed []) juan 5).1 =
        Except.ok ([] ++ [newContact]) ∧
      (([] : List Contact) ++ [newContact]).length =
        ([] : List Contact).length + 1 ∧
      newContact.nombre = juan.nombre ∧
      newContact.apellido = juan.apellido ∧
      newContact.telefono = juan.telefono ∧
      ∃ s, newContact.id = some s ∧ s ≠ "" :=
  ⟨⟨by decide, by decide, by decide, rfl⟩,
   create_valid_appends_one (.wellFormed []) [] juan 5
     (by decide) (by decide) (by decide) rfl⟩

/-- Behaviour of `POST /api/contacts` when some required field is falsy: 400
and no state change. -/
theorem postContacts_invalid (fc : FileContent) (body : Contact) (now : Nat)
    (h : ¬(truthy body.nombre = true ∧ truthy body.apellido = true ∧
           truthy body.telefono = true)) :
    postContacts fc body now =
      (fc, .badRequest
        "Faltan campos obligatorios: nombre, apellido o telefono.") := by
  cases hn : truthy body.nombre with
  | false => simp [postContacts, hn]
  | true =>
    cases ha : truthy body.apellido with
    | false => simp [postContacts, hn, ha]
    | true =>
      cases ht : truthy body.telefono with
      | false => simp [postContacts, hn, ha, ht]
      | true => exact absurd ⟨hn, ha, ht⟩ h

/-- Behaviour of `POST /api/contacts` when the fields are truthy but the
store read fails with a propagated error: 500 and no state change. -/
theorem postContacts_readError (fc : FileContent) (body : Contact) (now : Nat)
    (e : FsError)
    (hn : truthy body.nombre = true) (ha : truthy body.apellido = true)
    (ht : truthy body.telefono = true)
    (hread : readContacts fc = Except.error e) :
    postContacts fc body now =
      (fc, .serverError "Error interno del servidor al agregar contacto.") := by
  simp [postContacts, hn, ha, ht, hread]

/-- Claim C2 — when `nombre`, `apellido` or `telefono` is missing or empty,
`POST /api/contacts` answers 400 with a message and leaves the document in
exactly the state it was in before the call. -/
theorem create_invalid_no_side_effect (fc : FileContent) (body : Contact)
    (now : Nat)
    (h : ¬(truthy body.nombre = true ∧ truthy body.apellido = true ∧
           truthy body.telefono = true)) :
    postContacts fc body now =
      (fc, .badRequest
        "Faltan campos obligatorios: nombre, apellido o telefono.") :=
  postContacts_invalid fc body now h

/-- Witness for C2: a request whose `nombre` is the empty string is rejected
and the store (holding one contact) is untouched. -/
theorem create_invalid_no_side_effect_witness :
    (¬(truthy (Contact.mk none (some "") (some "Perez")
        (some "8091234567")).nombre = true ∧
       truthy (Contact.mk none (some "") (some "Perez")
        (some "8091234567")).apellido = true ∧
       truthy (Contact.mk none (some "") (some "Perez")
        (some "8091234567")).telefono = true)) ∧
    postContacts (.wellFormed [{ juan with id := some "1" }])
        (Contact.mk none (some "") (some "Perez") (some "8091234567")) 5 =
      (.wellFormed [{ juan with id := some "1" }],
       .badRequest
        "Faltan campos obligatorios: nombre, apellido o telefono.") :=
  ⟨by decide,
   create_invalid_no_side_effect (.wellFormed [{ juan with id := some "1" }])
     (Contact.mk none (some "") (some "Perez") (some "8091234567")) 5
     (by decide)⟩

/-- Claim C3 — `readContacts` recovers an absent document (ENOENT) and a
document whose content fails `JSON.parse` as the empty collection, and
propagates every other read failure as an error. -/
theorem loadAll_recovery_and_propagation :
    readContacts (.err .enoent) = Except.ok [] ∧
    readContacts .malformed = Except.ok [] ∧
    ∀ e : FsError, e ≠ .enoent → readContacts (.err e) = Except.error e := by
  refine ⟨rfl, rfl, ?_⟩
  intro e he
  cases e with
  | enoent => exact absurd rfl he
  | eacces => rfl
  | eio => rfl

/-- Witness for C3: permission denied is not ENOENT, and it propagates. -/
theorem loadAll_recovery_and_propagation_witness :
    FsError.eacces ≠ FsError.enoent ∧
    readContacts (.err .eacces) = Except.error .eacces :=
  ⟨by decide,
   loadAll_recovery_and_propagation.2.2 .eacces (by decide)⟩

/-- Claim C4 — writing back whatever a successful read returned produces a
document from which the very same sequence is read again: the persisted
contents round-trip through `writeContacts` after `readContacts`. -/
theorem saveAll_loadAll_roundtrip (fc : FileContent) (cs : List Contact)
    (hread : readContacts fc = Except.ok cs) :
    readContacts (writeContacts cs) = Except.ok cs := rfl

/-- Witness for C4: reading a malformed document yields `[]`; writing `[]`
back and re-reading yields `[]` again. -/
theorem saveAll_loadAll_roundtrip_witness :
    readContacts .malformed = Except.ok ([] : List Contact) ∧
    readContacts (writeContacts []) = Except.ok ([] : List Contact) :=
  ⟨rfl, saveAll_loadAll_roundtrip .malformed [] rfl⟩

/-- Field rules the spec's invariant asserts for every persisted contact:
non-empty `id`, `nombre`, `apellido`, and a phone whose digit count lies
within the 7–15 bound. -/
def contactMeetsFieldRules (c : Contact) : Bool :=
  truthy c.id && truthy c.nombre && truthy c.apellido &&
  match c.telefono with
  | none => false
  | some s =>
    decide (7 ≤ (removeNonDigits s).length) &&
    decide ((removeNonDigits s).length ≤ 15)

/-- The part of the invariant the server actually enforces: all four fields
present and non-empty. -/
def contactFieldsPresent (c : Contact) : Bool :=
  truthy c.id && truthy c.nombre && truthy c.apellido && truthy c.telefono

/-- Claim C5 counterexample — starting from an empty store (where the claimed
invariant holds vacuously), the create request
`{nombre: "Juan", apellido: "Perez", telefono: "x"}` passes the server's
presence-only validation, is persisted with `id` `"5"` at clock reading 5,
and the stored contact's phone has 0 digits, violating the 7–15 digit-count
bound: the POST operation does not preserve the claimed invariant. -/
theorem invariant_digit_bound_counterexample :
    ([] : List Contact).all contactMeetsFieldRules = true ∧
    (postContacts (.wellFormed [])
        (Contact.mk none (some "Juan") (some "Perez") (some "x")) 5).2 =
      .created "Contacto agregado exitosamente" ∧
    readContacts (postContacts (.wellFormed [])
        (Contact.mk none (some "Juan") (some "Perez") (some "x")) 5).1 =
      Except.ok [Contact.mk (some "5") (some "Juan") (some "Perez")
        (some "x")] ∧
    contactMeetsFieldRules
      (Contact.mk (some "5") (some "Juan") (some "Perez") (some "x")) =
      false := by
  decide

/-- Claim C5 (amended) — every API operation preserves the invariant that
every persisted contact has a non-empty `id`, `nombre`, `apellido` and
`telefono`; the phone digit-count bound is not enforced by the server (it is
only checked client-side).  `GET /api/contacts` performs no write, so only
the POST route can change the store. -/
theorem post_preserves_field_presence (fc : FileContent) (body : Contact)
    (now : Nat)
    (hfc : ∀ cs, readContacts fc = Except.ok cs →
      cs.all contactFieldsPresent = true) :
    ∀ cs2, readContacts (postContacts fc body now).1 = Except.ok cs2 →
      cs2.all contactFieldsPresent = true := by
  intro cs2 h2
  by_cases hv : truthy body.nombre = true ∧ truthy body.apellido = true ∧
      truthy body.telefono = true
  · obtain ⟨hn, ha, ht⟩ := hv
    cases hread : readContacts fc with
    | error e =>
      rw [postContacts_readError fc body now e hn ha ht hread] at h2
      exact hfc cs2 h2
    | ok cs =>
      rw [postContacts_valid fc cs body now hn ha ht hread] at h2
      have hcs2 : cs ++ [{ body with id := some (Nat.repr now) }] = cs2 :=
        Except.ok.inj h2
      rw [← hcs2, List.all_append]
      have hid : truthy (some (Nat.repr now)) = true := by
        have : (Nat.repr now).isEmpty = false := by
          rw [Bool.eq_false_iff]
          intro hcontra
          exact natRepr_ne_empty now
            ((String.isEmpty_iff (Nat.repr now)).mp hcontra)
        simp [truthy, this]
      have hnew : contactFieldsPresent
          { body with id := some (Nat.repr now) } = true := by
        simp [contactFieldsPresent, hid, hn, ha, ht]
      simp [hfc cs hread, hnew]
  · rw [postContacts_invalid fc body now hv] at h2
    exact hfc cs2 h2

/-- Witness for C5 (amended): posting `juan` at clock reading 7 onto an
empty store preserves the presence invariant. -/
theorem post_preserves_field_presence_witness :
    (∀ cs, readContacts (.wellFormed []) = Except.ok cs →
      cs.all contactFieldsPresent = true) ∧
    (∀ cs2, readContacts (postContacts (.wellFormed []) juan 7).1 =
        Except.ok cs2 → cs2.all contactFieldsPresent = true) := by
  have hfc : ∀ cs, readContacts (.wellFormed []) = Except.ok cs →
      cs.all contactFieldsPresent = true := by
    intro cs h
    have h2 : ([] : List Contact) = cs := Except.ok.inj h
    rw [← h2]
    rfl
  exact ⟨hfc, post_preserves_field_presence (.wellFormed []) juan 7 hfc⟩

/-- Claim C6 counterexample — two distinct successful create calls (for the
distinct contacts `juan` and `maria`) that observe the same
`Date.now()` reading 99 both succeed with 201, and the two persisted
contacts receive the SAME id `"99"`: the code does not guarantee id
uniqueness across distinct calls. -/
theorem unique_id_counterexample :
    (postContacts (.wellFormed []) juan 99).2 =
      .created "Contacto agregado exitosamente" ∧
    (postContacts (postContacts (.wellFormed []) juan 99).1 maria 99).2 =
      .created "Contacto agregado exitosamente" ∧
    readContacts
        (postContacts (postContacts (.wellFormed []) juan 99).1 maria 99).1 =
      Except.ok [{ juan with id := some "99" },
        { maria with id := some "99" }] ∧
    ({ juan with id := some "99" } : Contact).id =
      ({ maria with id := some "99" } : Contact).id := by
  decide

/-- Claim C6 (amended) — two sequential successful create calls whose
`Date.now()` readings differ assign distinct ids to the two persisted
contacts (decimal rendering of the clock is injective). -/
theorem ids_distinct_for_distinct_clock (fc : FileContent) (cs : List Contact)
    (b1 b2 : Contact) (t1 t2 : Nat)
    (h1n : truthy b1.nombre = true) (h1a : truthy b1.apellido = true)
    (h1t : truthy b1.telefono = true)
    (h2n : truthy b2.nombre = true) (h2a : truthy b2.apellido = true)
    (h2t : truthy b2.telefono = true)
    (hread : readContacts fc = Except.ok cs) (hne : t1 ≠ t2) :
    readContacts (postContacts (postContacts fc b1 t1).1 b2 t2).1 =
      Except.ok (cs ++ [{ b1 with id := some (Nat.repr t1) },
        { b2 with id := some (Nat.repr t2) }]) ∧
    ({ b1 with id := some (Nat.repr t1) } : Contact).id ≠
      ({ b2 with id := some (Nat.repr t2) } : Contact).id := by
  have h1 := postContacts_valid fc cs b1 t1 h1n h1a h1t hread
  have hread2 : readContacts (postContacts fc b1 t1).1 =
      Except.ok (cs ++ [{ b1 with id := some (Nat.repr t1) }]) := by
    rw [h1]
    rfl
  have h2 := postContacts_valid (postContacts fc b1 t1).1
    (cs ++ [{ b1 with id := some (Nat.repr t1) }]) b2 t2 h2n h2a h2t hread2
  constructor
  · rw [h2]
    show Except.ok _ = _
    rw [List.append_assoc]
    rfl
  · show some (Nat.repr t1) ≠ some (Nat.repr t2)
    intro heq
    exact hne (natRepr_injective (Option.some.inj heq))

/-- Witness for C6 (amended): `juan` at clock 1 then `maria` at clock 2 on
an empty store get the ids "1" and "2". -/
theorem ids_distinct_for_distinct_clock_witness :
    (truthy juan.nombre = true ∧ truthy maria.nombre = true ∧
     readContacts (.wellFormed []) = Except.ok ([] : List Contact) ∧
     (1 : Nat) ≠ 2) ∧
    readContacts
        (postContacts (postContacts (.wellFormed []) juan 1).1 maria 2).1 =
      Except.ok ([] ++ [{ juan with id := some (Nat.repr 1) },
        { maria with id := some (Nat.repr 2) }]) ∧
    ({ juan with id := some (Nat.repr 1) } : Contact).id ≠
      ({ maria with id := some (Nat.repr 2) } : Contact).id :=
  ⟨⟨by decide, by decide, rfl, by decide⟩,
   ids_distinct_for_distinct_clock (.wellFormed []) [] juan maria 1 2
     (by decide) (by decide) (by decide) (by decide) (by decide) (by decide)
     rfl (by decide)⟩

/-- Claim C7 — submitting the form `Juan / Perez / 809-123-4567` passes
client validation, the phone is normalized to the 10-digit string
`8091234567` before the POST, the server persists the record with that phone
and a generated non-empty id, and a subsequent List returns it. -/
theorem scenario_create_juan_normalizes_phone (cs : List Contact)
    (now : Nat) :
    ∃ body : Contact,
      handleFormSubmit "Juan" "Perez" "809-123-4567" = some body ∧
      body.nombre = some "Juan" ∧ body.apellido = some "Perez" ∧
      body.telefono = some "8091234567" ∧
      (removeNonDigits "809-123-4567").length = 10 ∧
      postContacts (.wellFormed cs) body now =
        (.wellFormed (cs ++ [{ body with id := some (Nat.repr now) }]),
         .created "Contacto agregado exitosamente") ∧
      getContacts (postContacts (.wellFormed cs) body now).1 =
        .okJson (cs ++ [{ body with id := some (Nat.repr now) }]) ∧
      ∃ s, ({ body with id := some (Nat.repr now) } : Contact).id = some s ∧
        s ≠ "" := by
  have hpost := postContacts_valid (.wellFormed cs) cs juan now
    (by decide) (by decide) (by decide) rfl
  refine ⟨juan, by decide, rfl, rfl, rfl, by decide, hpost, ?_,
    Nat.repr now, rfl, natRepr_ne_empty now⟩
  rw [hpost]
  rfl

/-- Claim C8 — `GET /api/contacts` returns exactly the sequence `readContacts`
yields, unmodified; and after two sequential creates the list contains both
new contacts appended in creation order. -/
theorem list_returns_loadAll_in_order (fc : FileContent) (cs : List Contact)
    (b1 b2 : Contact) (t1 t2 : Nat)
    (hread : readContacts fc = Except.ok cs)
    (h1n : truthy b1.nombre = true) (h1a : truthy b1.apellido = true)
    (h1t : truthy b1.telefono = true)
    (h2n : truthy b2.nombre = true) (h2a : truthy b2.apellido = true)
    (h2t : truthy b2.telefono = true) :
    getContacts fc = .okJson cs ∧
    getContacts (postContacts (postContacts fc b1 t1).1 b2 t2).1 =
      .okJson (cs ++ [{ b1 with id := some (Nat.repr t1) },
        { b2 with id := some (Nat.repr t2) }]) := by
  constructor
  · simp [getContacts, hread]
  · have h1 := postContacts_valid fc cs b1 t1 h1n h1a h1t hread
    have hread2 : readContacts (postContacts fc b1 t1).1 =
        Except.ok (cs ++ [{ b1 with id := some (Nat.repr t1) }]) := by
      rw [h1]
      rfl
    have h2 := postContacts_valid (postContacts fc b1 t1).1
      (cs ++ [{ b1 with id := some (Nat.repr t1) }]) b2 t2 h2n h2a h2t hread2
    rw [h2]
    show Response.okJson _ = _
    rw [List.append_assoc]
    rfl

/-- Witness for C8: empty store, then `juan` at clock 1 and `maria` at
clock 2; List returns both in creation order. -/
theorem list_returns_loadAll_in_order_witness :
    (readContacts (.wellFormed []) = Except.ok ([] : List Contact) ∧
     truthy juan.nombre = true ∧ truthy maria.nombre = true) ∧
    getContacts (.wellFormed []) = .okJson [] ∧
    getContacts
        (postContacts (postContacts (.wellFormed []) juan 1).1 maria 2).1 =
      .okJson ([] ++ [{ juan with id := some (Nat.repr 1) },
        { maria with id := some (Nat.repr 2) }]) :=
  ⟨⟨rfl, by decide, by decide⟩,
   list_returns_loadAll_in_order (.wellFormed []) [] juan maria 1 2 rfl
     (by decide) (by decide) (by decide) (by decide) (by decide) (by decide)⟩

/-- Claim C9 — the client validator implements the data-model field rules:
`isValidPhone p` holds iff `p` is non-empty and deleting every non-digit
from `p` leaves between 7 and 15 characters; `isValidName n` holds iff `n`
is non-empty, every character of `n` belongs to the name character class
(ASCII letters, the accented letters `áéíóúÁÉÍÓÚñÑüÜ`, whitespace, hyphen,
apostrophe) and the length of `n` is between 2 and 50. -/
theorem validator_implements_field_rules :
    (∀ p : String, isValidPhone p = true ↔
      p ≠ "" ∧ 7 ≤ (removeNonDigits p).length ∧
        (removeNonDigits p).length ≤ 15) ∧
    (∀ n : String, isValidName n = true ↔
      n ≠ "" ∧ (∀ c ∈ n.data, isNameChar c = true) ∧
        2 ≤ n.length ∧ n.length ≤ 50) := by
  constructor
  · intro p
    by_cases hp : p = ""
    · subst hp
      constructor
      · intro h
        exact absurd h (by decide)
      · rintro ⟨h, -, -⟩
        exact absurd rfl h
    · have hempty : p.isEmpty = false := by
        rw [Bool.eq_false_iff]
        intro h
        exact hp ((String.isEmpty_iff p).mp h)
      simp [isValidPhone, hempty, hp]
  · intro n
    by_cases hn : n = ""
    · subst hn
      constructor
      · intro h
        exact absurd h (by decide)
      · rintro ⟨h, -, -, -⟩
        exact absurd rfl h
    · have hempty : n.isEmpty = false := by
        rw [Bool.eq_false_iff]
        intro h
        exact hn ((String.isEmpty_iff n).mp h)
      simp [isValidName, nameRegexTest, hempty, hn, List.all_eq_true,
        and_assoc]

/-- Claim C10 — a client-supplied `id` in the request body is ignored: the
whole POST outcome is independent of it, and on success the persisted new
contact carries the server-assigned id `Date.now().toString()`. -/
theorem client_supplied_id_ignored (fc : FileContent) (body : Contact)
    (suppliedId : Option String) (now : Nat) :
    postContacts fc { body with id := suppliedId } now =
      postContacts fc body now ∧
    (∀ cs, readContacts fc = Except.ok cs →
      truthy body.nombre = true → truthy body.apellido = true →
      truthy body.telefono = true →
      (postContacts fc { body with id := suppliedId } now).1 =
        .wellFormed (cs ++ [{ body with id := some (Nat.repr now) }])) := by
  constructor
  · rfl
  · intro cs hread hn ha ht
    rw [postContacts_valid fc cs { body with id := suppliedId } now
      hn ha ht hread]

/-- Witness for C10: a body carrying `id := "evil"` produces the same
outcome as one without, and the stored id is the clock string. -/
theorem client_supplied_id_ignored_witness :
    (readContacts (.wellFormed []) = Except.ok ([] : List Contact) ∧
     truthy juan.nombre = true) ∧
    postContacts (.wellFormed []) { juan with id := some "evil" } 5 =
      postContacts (.wellFormed []) juan 5 ∧
    (postContacts (.wellFormed []) { juan with id := some "evil" } 5).1 =
      .wellFormed ([] ++ [{ juan with id := some (Nat.repr 5) }]) :=
  ⟨⟨rfl, by decide⟩,
   (client_supplied_id_ignored (.wellFormed []) juan (some "evil") 5).1,
   (client_supplied_id_ignored (.wellFormed []) juan (some "evil") 5).2 []
     rfl (by decide) (by decide) (by decide)⟩

end AgendaCapas
